import Mathlib

/-!
A shallow embedding of the JWT authorization flow of the coffee-shop API
(`backend/src/api.py`): `get_token_auth_header`, `verify_decode_jwt`,
`check_permissions`, the `requires_auth` decorator, and the Flask error
handlers that render the final HTTP response.  External collaborators
(the `jose` library and the network fetch of the JWKS document) are
modelled as an explicit `ExternalWorld` record of oracles, so the
repository's own control flow is embedded exactly as written.
-/

namespace CoffeeShop

/-- Configuration constant `AUTH0_DOMAIN` from api.py. -/
def AUTH0_DOMAIN : String := "full.eu.auth0.com"

/-- Configuration constant `ALGORITHMS` from api.py. -/
def ALGORITHMS : List String := ["RS256"]

/-- Configuration constant `API_AUDIENCE` from api.py. -/
def API_AUDIENCE : String := "drinks"

/-- One entry of the fetched key set (a JWKS key object): identifier,
key type, usage, modulus and exponent, as read by `verify_decode_jwt`. -/
structure Jwk where
  kid : String
  kty : String
  use : String
  n : String
  e : String
deriving DecidableEq, Repr

/-- The fetched key set: the `keys` array of the JWKS document. -/
structure Jwks where
  keys : List Jwk
deriving DecidableEq, Repr

/-- The unverified token header as returned by `jwt.get_unverified_header`:
the only field api.py reads is the (possibly absent) key identifier. -/
structure UnverifiedHeader where
  kid : Option String
deriving DecidableEq, Repr

/-- A decoded token payload.  api.py reads the (possibly absent)
`permissions` claim; the audience and issuer claims are carried so the
verification invariant can be stated. -/
structure Payload where
  permissions : Option (List String)
  aud : String
  iss : String
deriving DecidableEq, Repr

/-- Outcome of the external `jwt.decode` call: success, or one of the
exception classes api.py distinguishes (`ExpiredSignatureError`,
`JWTClaimsError`, any other `Exception`). -/
inductive DecodeResult where
  | ok (payload : Payload)
  | expired
  | claimsError
  | otherError
deriving DecidableEq, Repr

/-- A Python exception escaping `verify_decode_jwt`: either an `AuthError`
carrying the error dict (`code`, `description`) and a status code, or any
other exception (e.g. a `URLError` from the key-set fetch). -/
inductive PyExc where
  | authError (code description : String) (status : Nat)
  | other
deriving DecidableEq, Repr

/-- The external collaborators of one request: the key-set fetch
(`urlopen` + `json.loads`, which may fail), `jwt.get_unverified_header`
(which may raise on an unparseable token), and `jwt.decode` applied to a
token, a selected key, the algorithm list, the expected audience and the
expected issuer.  `sigValid` and `expiredAt` are the abstract facts about
tokens that the decode oracle's contract is stated with. -/
structure ExternalWorld where
  fetchJwks : Except Unit Jwks
  getUnverifiedHeader : String → Except Unit UnverifiedHeader
  decode : String → Jwk → List String → String → String → DecodeResult
  sigValid : String → Jwk → Bool
  expiredAt : String → Bool

/-- The key-selection loop of `verify_decode_jwt`: iterate over the key
set, overwriting `rsa_key` at every entry whose `kid` matches, so the
last matching entry wins and `none` models the empty dict. -/
def chooseKey (keys : List Jwk) (kid : String) : Option Jwk :=
  keys.foldl (fun rsa_key key => if key.kid = kid then some key else rsa_key) none

/-- Embedding of `verify_decode_jwt` (api.py lines 28-87): fetch the key
set, read the unverified header, select the matching key, then decode and
classify the decode failures exactly as the source's except clauses do.
A fetch or header-parse failure propagates as a non-AuthError exception,
since in the source those calls stand outside every try block. -/
def verify_decode_jwt (W : ExternalWorld) (token : String) : Except PyExc Payload :=
  match W.fetchJwks with
  | Except.error _ => Except.error PyExc.other
  | Except.ok jwks =>
    match W.getUnverifiedHeader token with
    | Except.error _ => Except.error PyExc.other
    | Except.ok unverified_header =>
      match unverified_header.kid with
      | none => Except.error (PyExc.authError "invalid_header" "Authorization malformed." 401)
      | some kid =>
        match chooseKey jwks.keys kid with
        | some rsa_key =>
          match W.decode token rsa_key ALGORITHMS API_AUDIENCE ("https://" ++ AUTH0_DOMAIN ++ "/") with
          | DecodeResult.ok payload => Except.ok payload
          | DecodeResult.expired =>
              Except.error (PyExc.authError "token_expired" "Token expired." 401)
          | DecodeResult.claimsError =>
              Except.error (PyExc.authError "invalid_claims"
                "Incorrect claims. Please, check the audience and issuer." 401)
          | DecodeResult.otherError =>
              Except.error (PyExc.authError "invalid_header"
                "Unable to parse authentication token." 400)
        | none =>
            Except.error (PyExc.authError "invalid_header"
              "Unable to find the appropriate key." 400)

/-- Split a character list at every character satisfying `p`, keeping
empty fields, exactly as Python's `str.split` with an explicit separator
does: `"a  b".split(' ') = ['a', '', 'b']` and `"".split(' ') = ['']`. -/
def splitWhen (p : Char → Bool) : List Char → List (List Char)
  | [] => [[]]
  | c :: cs =>
    match splitWhen p cs with
    | [] => [[]]
    | part :: parts => if p c then [] :: part :: parts else (c :: part) :: parts

/-- Embedding of `get_token_auth_header` (api.py lines 91-102): abort 401
when the Authorization header is absent, split the header value on the
space character (Python's `split(' ')`), abort 401 unless exactly two
parts result, abort 401 unless the first part lowercases to "bearer",
else return the second part. -/
def get_token_auth_header (authHeader : Option String) : Except Nat String :=
  match authHeader with
  | none => Except.error 401
  | some auth_header =>
    match splitWhen (fun c => c = ' ') auth_header.data with
    | [p0, p1] =>
        if p0.map Char.toLower ≠ "bearer".data then Except.error 401
        else Except.ok (String.mk p1)
    | _ => Except.error 401

/-- Embedding of `check_permissions` (api.py lines 104-109): abort 400
when the payload has no permissions claim, abort 403 when the required
permission is not a member of the list, else return True. -/
def check_permissions (permission : String) (payload : Payload) : Except Nat Bool :=
  match payload.permissions with
  | none => Except.error 400
  | some perms => if permission ∉ perms then Except.error 403 else Except.ok true

/-- Embedding of the `requires_auth` decorator's wrapper (api.py lines
111-123): extract the token (aborts propagate), verify it inside a bare
try/except that turns every exception into abort(401), check permissions
(aborts propagate), then call the guarded handler on the payload. -/
def requires_auth {α : Type} (W : ExternalWorld) (permission : String)
    (f : Payload → α) (authHeader : Option String) : Except Nat α :=
  match get_token_auth_header authHeader with
  | Except.error s => Except.error s
  | Except.ok tok =>
    match verify_decode_jwt W tok with
    | Except.error _ => Except.error 401
    | Except.ok payload =>
      match check_permissions permission payload with
      | Except.error s => Except.error s
      | Except.ok _ => Except.ok (f payload)

/-- The `requires_auth` wrapper with the guarded handler modelled as a
state transformer, so that the absence of side effects on failing
requests can be stated: the handler receives the payload and the current
state and is invoked only on the success path. -/
def requires_auth_effect {σ α : Type} (W : ExternalWorld) (permission : String)
    (f : Payload → σ → α × σ) (authHeader : Option String) (s : σ) :
    Except Nat α × σ :=
  match get_token_auth_header authHeader with
  | Except.error st => (Except.error st, s)
  | Except.ok tok =>
    match verify_decode_jwt W tok with
    | Except.error _ => (Except.error 401, s)
    | Except.ok payload =>
      match check_permissions permission payload with
      | Except.error st => (Except.error st, s)
      | Except.ok _ =>
        match f payload s with
        | (a, s1) => (Except.ok a, s1)

/-- A JSON response body as produced by api.py's error handlers: the
generic `success`/`error`/`message` shape, the AuthError dict shape of
`handle_auth_error`, Flask's built-in page for statuses with no
registered handler, or a guarded handler's own output. -/
inductive RespBody where
  | generic (success : Bool) (error : Nat) (message : String)
  | authJson (code description : String)
  | flaskDefault (status : Nat)
  | handlerBody (content : String)
deriving DecidableEq, Repr

/-- An HTTP response: status code and JSON body. -/
structure HttpResponse where
  status : Nat
  body : RespBody
deriving DecidableEq, Repr

/-- The registered Flask error handlers of api.py (lines 319-360) applied
to an abort status: 401 "unauthorized", 403 "forbidden", 404 "resource
not found", 422 "unprocessable"; any other status (in particular 400,
which has no registered handler) falls through to Flask's default page. -/
def render_error (status : Nat) : HttpResponse :=
  if status = 401 then { status := 401, body := RespBody.generic false 401 "unauthorized" }
  else if status = 403 then { status := 403, body := RespBody.generic false 403 "forbidden" }
  else if status = 404 then { status := 404, body := RespBody.generic false 404 "resource not found" }
  else if status = 422 then { status := 422, body := RespBody.generic false 422 "unprocessable" }
  else { status := status, body := RespBody.flaskDefault status }

/-- Embedding of `handle_auth_error` (api.py lines 366-370): render an
uncaught AuthError verbatim as its error dict with its status code; a
non-AuthError exception would instead surface as a 500. -/
def handle_auth_error (e : PyExc) : HttpResponse :=
  match e with
  | PyExc.authError code description status =>
      { status := status, body := RespBody.authJson code description }
  | PyExc.other => { status := 500, body := RespBody.flaskDefault 500 }

/-- One full request through a `requires_auth`-guarded route: run the
wrapper; an abort is rendered by the registered error handlers, a success
is the handler's body with status 200.  AuthError never reaches
`handle_auth_error` here because the wrapper's bare except has already
converted it to abort(401). -/
def handle_request (W : ExternalWorld) (permission : String)
    (f : Payload → RespBody) (authHeader : Option String) : HttpResponse :=
  match requires_auth W permission f authHeader with
  | Except.error s => render_error s
  | Except.ok body => { status := 200, body := body }

/-- Modelled from the spec: the header-extraction step as §4.1 step 1
words it, "split the header value on whitespace", with the resulting
non-empty fields as the tokens.  Kept only to compare with the source's
`get_token_auth_header`, which splits on the space character. -/
def get_token_auth_header_specWords (authHeader : Option String) : Except Nat String :=
  match authHeader with
  | none => Except.error 401
  | some auth_header =>
    match (splitWhen (fun c => c.isWhitespace) auth_header.data).filter
        (fun part => ¬ part.isEmpty) with
    | [p0, p1] =>
        if p0.map Char.toLower ≠ "bearer".data then Except.error 401
        else Except.ok (String.mk p1)
    | _ => Except.error 401

/-! Concrete fixtures: a one-key key set and an external world whose
oracles classify a handful of named token strings, used to evaluate the
embedded guard on concrete requests. -/

/-- A fixture JWKS key with identifier "k1". -/
def kD : Jwk := { kid := "k1", kty := "RSA", use := "sig", n := "nn", e := "ee" }

/-- Fixture decode oracle: "tokOK" decodes to a payload with the
`get:drinks-detail` permission, "tokNoPerm" to a payload without a
permissions claim, "tokExp" raises ExpiredSignatureError, "tokClaims"
raises JWTClaimsError, anything else raises a generic exception. -/
def decodeT (t : String) (_k : Jwk) (_algs : List String) (aud iss : String) : DecodeResult :=
  if t = "tokOK" then DecodeResult.ok { permissions := some ["get:drinks-detail"], aud := aud, iss := iss }
  else if t = "tokNoPerm" then DecodeResult.ok { permissions := none, aud := aud, iss := iss }
  else if t = "tokExp" then DecodeResult.expired
  else if t = "tokClaims" then DecodeResult.claimsError
  else DecodeResult.otherError

/-- Fixture unverified-header oracle: "tokMiss" carries a key identifier
absent from the key set, "tokNoKid" carries none, "tokRaise" is
unparseable, every other token names key "k1". -/
def uhT (t : String) : Except Unit UnverifiedHeader :=
  if t = "tokMiss" then Except.ok { kid := some "kX" }
  else if t = "tokNoKid" then Except.ok { kid := none }
  else if t = "tokRaise" then Except.error ()
  else Except.ok { kid := some "k1" }

/-- Fixture world: the key-set fetch succeeds with the one-key set. -/
def Wtest : ExternalWorld :=
  { fetchJwks := Except.ok { keys := [kD] }
    getUnverifiedHeader := uhT
    decode := decodeT
    sigValid := fun t _ => decide (t = "tokOK" ∨ t = "tokNoPerm")
    expiredAt := fun _ => false }

/-- Fixture world in which the key-set fetch raises. -/
def Wfetchfail : ExternalWorld :=
  { Wtest with fetchJwks := Except.error () }

/-- Every abort raised by `get_token_auth_header` carries status 401. -/
theorem get_token_auth_header_error_401 (authHeader : Option String) (s : Nat)
    (h : get_token_auth_header authHeader = Except.error s) : s = 401 := by
  unfold get_token_auth_header at h
  split at h
  · exact (Except.error.injEq _ _ ▸ h).symm ▸ rfl
  · split at h
    · split at h
      · exact ((Except.error.injEq 401 s).mp h).symm
      · exact absurd h (by simp)
    · exact ((Except.error.injEq 401 s).mp h).symm

/-- A key produced by the key-selection loop of `verify_decode_jwt` is a
member of the fetched key set and its identifier matches the one looked
up. -/
theorem chooseKey_eq_some (keys : List Jwk) (kid : String) (k : Jwk)
    (h : chooseKey keys kid = some k) : k ∈ keys ∧ k.kid = kid := by
  have main : ∀ (l : List Jwk) (acc : Option Jwk),
      l.foldl (fun rsa_key key => if key.kid = kid then some key else rsa_key) acc = some k →
      acc = some k ∨ (k ∈ l ∧ k.kid = kid) := by
    intro l
    induction l with
    | nil => intro acc hf; exact Or.inl (by simpa using hf)
    | cons a as ih =>
      intro acc hf
      rw [List.foldl_cons] at hf
      rcases ih _ hf with h1 | h2
      · by_cases hk : a.kid = kid
        · rw [if_pos hk] at h1
          have ha : a = k := Option.some.inj h1
          exact Or.inr ⟨ha ▸ List.mem_cons_self a as, ha ▸ hk⟩
        · rw [if_neg hk] at h1
          exact Or.inl h1
      · exact Or.inr ⟨List.mem_cons_of_mem a h2.1, h2.2⟩
  rcases main keys none h with h1 | h2
  · exact absurd h1 (by simp)
  · exact h2

/-- C1: the claim says a token whose key identifier matches no entry in
the fetched key set is rejected with kind KeyNotFound and HTTP status
400.  In the code, `verify_decode_jwt` does raise the KeyNotFound
AuthError (code "invalid_header", description "Unable to find the
appropriate key.", status 400), but the `requires_auth` wrapper's bare
except converts every exception from `verify_decode_jwt` into
abort(401), so the request is actually rejected with HTTP status 401 and
the generic "unauthorized" body, never with status 400. -/
theorem c1_key_not_found_surfaced_as_401 :
    verify_decode_jwt Wtest "tokMiss" =
      Except.error (PyExc.authError "invalid_header" "Unable to find the appropriate key." 400) ∧
    handle_request Wtest "get:drinks-detail" (fun _ => RespBody.handlerBody "drinks")
        (some "Bearer tokMiss") =
      { status := 401, body := RespBody.generic false 401 "unauthorized" } ∧
    (handle_request Wtest "get:drinks-detail" (fun _ => RespBody.handlerBody "drinks")
        (some "Bearer tokMiss")).status ≠ 400 :=
  ⟨rfl, rfl, by decide⟩

/-- C2: the claim says every failing authorization attempt surfaces its
AuthError kind's fixed status and its code/description verbatim.  In the
code, an expired token makes `verify_decode_jwt` raise
AuthError(code "token_expired", description "Token expired.", 401),
which `handle_auth_error` would render verbatim, but the wrapper's bare
except swallows it and the caller instead receives the generic 401
"unauthorized" body: the code and description are replaced. -/
theorem c2_error_not_surfaced_verbatim :
    verify_decode_jwt Wtest "tokExp" =
      Except.error (PyExc.authError "token_expired" "Token expired." 401) ∧
    handle_auth_error (PyExc.authError "token_expired" "Token expired." 401) =
      { status := 401, body := RespBody.authJson "token_expired" "Token expired." } ∧
    handle_request Wtest "get:drinks-detail" (fun _ => RespBody.handlerBody "drinks")
        (some "Bearer tokExp") =
      { status := 401, body := RespBody.generic false 401 "unauthorized" } ∧
    RespBody.generic false 401 "unauthorized" ≠
      RespBody.authJson "token_expired" "Token expired." :=
  ⟨rfl, rfl, rfl, by decide⟩

/-- C5: the claim says verification failures are classified precisely
(expired → TokenExpired 401, audience/issuer mismatch → InvalidClaims
401, other → InvalidHeader 400) and surfaced as such.
`verify_decode_jwt` does classify exactly this way, but the
InvalidHeader-400 case (like every other) is surfaced by the wrapper as
the generic 401 "unauthorized" response, not with status 400. -/
theorem c5_classification_right_surfacing_wrong :
    verify_decode_jwt Wtest "tokExp" =
      Except.error (PyExc.authError "token_expired" "Token expired." 401) ∧
    verify_decode_jwt Wtest "tokClaims" =
      Except.error (PyExc.authError "invalid_claims"
        "Incorrect claims. Please, check the audience and issuer." 401) ∧
    verify_decode_jwt Wtest "tokBad" =
      Except.error (PyExc.authError "invalid_header"
        "Unable to parse authentication token." 400) ∧
    handle_request Wtest "get:drinks-detail" (fun _ => RespBody.handlerBody "drinks")
        (some "Bearer tokBad") =
      { status := 401, body := RespBody.generic false 401 "unauthorized" } :=
  ⟨rfl, rfl, rfl, rfl⟩

/-- C10: whenever `verify_decode_jwt` raises any exception at all — any
AuthError, whatever its own status and body, or any other exception —
the `requires_auth` wrapper rejects the request uniformly with HTTP
status 401 and the generic body success=false, error=401,
message="unauthorized". -/
theorem c10_any_verify_exception_gives_generic_401 (W : ExternalWorld)
    (perm : String) (f : Payload → RespBody) (authHeader : Option String)
    (tok : String) (e : PyExc)
    (hg : get_token_auth_header authHeader = Except.ok tok)
    (hv : verify_decode_jwt W tok = Except.error e) :
    handle_request W perm f authHeader =
      { status := 401, body := RespBody.generic false 401 "unauthorized" } := by
  unfold handle_request requires_auth
  simp only [hg, hv]
  rfl

/-- C10 witness: a token whose header parse raises a non-AuthError
exception is rejected with the generic 401 body. -/
theorem c10_any_verify_exception_gives_generic_401_witness :
    handle_request Wtest "get:drinks-detail" (fun _ => RespBody.handlerBody "drinks")
        (some "Bearer tokRaise") =
      { status := 401, body := RespBody.generic false 401 "unauthorized" } :=
  c10_any_verify_exception_gives_generic_401 Wtest "get:drinks-detail"
    (fun _ => RespBody.handlerBody "drinks") (some "Bearer tokRaise")
    "tokRaise" PyExc.other rfl rfl

/-- C3 counterexample: when the key-set fetch raises, the exception is
not converted into the InvalidHeader AuthError (the fetch stands outside
every try block of `verify_decode_jwt`), and the request is rejected
with HTTP status 401 (generic "unauthorized"), not 400 as the claim
states. -/
theorem c3_fetch_failure_not_invalid_header_400 :
    verify_decode_jwt Wfetchfail "tokOK" = Except.error PyExc.other ∧
    (∀ code description, verify_decode_jwt Wfetchfail "tokOK" ≠
      Except.error (PyExc.authError code description 400)) ∧
    handle_request Wfetchfail "get:drinks-detail" (fun _ => RespBody.handlerBody "drinks")
        (some "Bearer tokOK") =
      { status := 401, body := RespBody.generic false 401 "unauthorized" } ∧
    (handle_request Wfetchfail "get:drinks-detail" (fun _ => RespBody.handlerBody "drinks")
        (some "Bearer tokOK")).status ≠ 400 :=
  ⟨rfl, fun _ _ h => by simp [verify_decode_jwt, Wfetchfail, Wtest] at h, rfl, by decide⟩

/-- C3 amended: for every request during which the key-set fetch raises,
the guard fails closed — the request is rejected with HTTP status 401
and the generic "unauthorized" body, so the guarded handler never runs —
but the failure is a propagated exception turned into abort(401), not an
InvalidHeader AuthError with status 400. -/
theorem c3_fetch_failure_fails_closed (W : ExternalWorld) (perm : String)
    (f : Payload → RespBody) (authHeader : Option String)
    (hW : W.fetchJwks = Except.error ()) :
    handle_request W perm f authHeader =
      { status := 401, body := RespBody.generic false 401 "unauthorized" } := by
  unfold handle_request requires_auth
  cases hg : get_token_auth_header authHeader with
  | error s =>
    have hs : s = 401 := get_token_auth_header_error_401 authHeader s hg
    simp only [hg, hs]
    rfl
  | ok tok =>
    have hv : verify_decode_jwt W tok = Except.error PyExc.other := by
      unfold verify_decode_jwt
      rw [hW]
    simp only [hg, hv]
    rfl

/-- C3 amended witness: with a failing fetch and no Authorization header
the response is the generic 401. -/
theorem c3_fetch_failure_fails_closed_witness :
    handle_request Wfetchfail "get:drinks-detail" (fun _ => RespBody.handlerBody "drinks")
        none =
      { status := 401, body := RespBody.generic false 401 "unauthorized" } :=
  c3_fetch_failure_fails_closed Wfetchfail "get:drinks-detail"
    (fun _ => RespBody.handlerBody "drinks") none rfl

/-- C6: a successfully verified payload without a permissions claim is
rejected with HTTP status 400 (the MissingPermissionsClaim case of the
error taxonomy), whatever the required permission: `check_permissions`
aborts with 400, the wrapper propagates it, and the response status is
400. -/
theorem c6_missing_permissions_claim_400 (W : ExternalWorld) (perm : String)
    (f : Payload → RespBody) (authHeader : Option String) (tok : String)
    (payload : Payload)
    (hg : get_token_auth_header authHeader = Except.ok tok)
    (hv : verify_decode_jwt W tok = Except.ok payload)
    (hp : payload.permissions = none) :
    check_permissions perm payload = Except.error 400 ∧
    requires_auth W perm f authHeader = Except.error 400 ∧
    (handle_request W perm f authHeader).status = 400 := by
  have hc : check_permissions perm payload = Except.error 400 := by
    unfold check_permissions
    rw [hp]
  refine ⟨hc, ?_, ?_⟩
  · unfold requires_auth
    simp only [hg, hv, hc]
  · unfold handle_request requires_auth
    simp only [hg, hv, hc]
    rfl

/-- C6 witness: the fixture token decoding to a payload without a
permissions claim is rejected with status 400. -/
theorem c6_missing_permissions_claim_400_witness :
    check_permissions "get:drinks-detail"
      { permissions := none, aud := "drinks", iss := "https://full.eu.auth0.com/" } =
      Except.error 400 ∧
    requires_auth Wtest "get:drinks-detail" (fun _ => RespBody.handlerBody "drinks")
      (some "Bearer tokNoPerm") = Except.error 400 ∧
    (handle_request Wtest "get:drinks-detail" (fun _ => RespBody.handlerBody "drinks")
      (some "Bearer tokNoPerm")).status = 400 :=
  c6_missing_permissions_claim_400 Wtest "get:drinks-detail"
    (fun _ => RespBody.handlerBody "drinks") (some "Bearer tokNoPerm")
    "tokNoPerm" { permissions := none, aud := "drinks", iss := "https://full.eu.auth0.com/" }
    rfl rfl rfl

/-- C7: for a verified payload carrying a permissions list, membership of
the required permission decides the outcome exactly: a non-member is
rejected with status 403 and the "forbidden" body, a member makes the
guard succeed and call the handler on the decoded payload with status
200 and no error. -/
theorem c7_membership_decides_outcome (W : ExternalWorld) (perm : String)
    (f : Payload → RespBody) (authHeader : Option String) (tok : String)
    (payload : Payload) (perms : List String)
    (hg : get_token_auth_header authHeader = Except.ok tok)
    (hv : verify_decode_jwt W tok = Except.ok payload)
    (hp : payload.permissions = some perms) :
    (perm ∉ perms →
      requires_auth W perm f authHeader = Except.error 403 ∧
      handle_request W perm f authHeader =
        { status := 403, body := RespBody.generic false 403 "forbidden" }) ∧
    (perm ∈ perms →
      requires_auth W perm f authHeader = Except.ok (f payload) ∧
      handle_request W perm f authHeader = { status := 200, body := f payload }) := by
  constructor
  · intro hnot
    have hc : check_permissions perm payload = Except.error 403 := by
      unfold check_permissions
      rw [hp]
      simp [hnot]
    constructor
    · unfold requires_auth
      simp only [hg, hv, hc]
    · unfold handle_request requires_auth
      simp only [hg, hv, hc]
      rfl
  · intro hmem
    have hc : check_permissions perm payload = Except.ok true := by
      unfold check_permissions
      rw [hp]
      simp [hmem]
    constructor
    · unfold requires_auth
      simp only [hg, hv, hc]
    · unfold handle_request requires_auth
      simp only [hg, hv, hc]

/-- C7 witness: with payload permissions ["get:drinks-detail"], requiring
"delete:drinks" is rejected with 403 and requiring "get:drinks-detail"
succeeds, the handler receiving the payload. -/
theorem c7_membership_decides_outcome_witness :
    requires_auth Wtest "delete:drinks" (fun _ => RespBody.handlerBody "drinks")
      (some "Bearer tokOK") = Except.error 403 ∧
    requires_auth Wtest "get:drinks-detail" (fun _ => RespBody.handlerBody "drinks")
      (some "Bearer tokOK") = Except.ok (RespBody.handlerBody "drinks") :=
  ⟨((c7_membership_decides_outcome Wtest "delete:drinks"
      (fun _ => RespBody.handlerBody "drinks") (some "Bearer tokOK") "tokOK"
      { permissions := some ["get:drinks-detail"], aud := "drinks",
        iss := "https://full.eu.auth0.com/" }
      ["get:drinks-detail"] rfl rfl rfl).1 (by decide)).1,
   ((c7_membership_decides_outcome Wtest "get:drinks-detail"
      (fun _ => RespBody.handlerBody "drinks") (some "Bearer tokOK") "tokOK"
      { permissions := some ["get:drinks-detail"], aud := "drinks",
        iss := "https://full.eu.auth0.com/" }
      ["get:drinks-detail"] rfl rfl rfl).2 (by decide)).1⟩

/-- C9: every authorization failure terminates the request before the
guarded handler runs, so the handler's state transformer is never
applied on a failing request: whenever the wrapper returns an abort, the
final state equals the initial state. -/
theorem c9_no_side_effects_on_failure {σ α : Type} (W : ExternalWorld)
    (perm : String) (f : Payload → σ → α × σ) (authHeader : Option String)
    (s : σ) (code : Nat)
    (h : (requires_auth_effect W perm f authHeader s).1 = Except.error code) :
    (requires_auth_effect W perm f authHeader s).2 = s := by
  unfold requires_auth_effect at h ⊢
  cases hg : get_token_auth_header authHeader with
  | error st => simp only [hg]
  | ok tok =>
    cases hv : verify_decode_jwt W tok with
    | error e => simp only [hg, hv]
    | ok payload =>
      cases hc : check_permissions perm payload with
      | error st => simp only [hg, hv, hc]
      | ok b =>
        exfalso
        cases hf : f payload s with
        | mk a s1 =>
          simp only [hg, hv, hc, hf] at h
          exact absurd h (by simp)

/-- C9 witness: a request rejected for lacking the required permission
leaves the state (here a counter) unchanged. -/
theorem c9_no_side_effects_on_failure_witness :
    (requires_auth_effect Wtest "delete:drinks"
      (fun _ (s : Nat) => ((), s + 1)) (some "Bearer tokOK") 7).2 = 7 :=
  c9_no_side_effects_on_failure Wtest "delete:drinks"
    (fun _ (s : Nat) => ((), s + 1)) (some "Bearer tokOK") 7 403 rfl

/-- C8: under the decode oracle's contract — a successful `jwt.decode`
implies the signature verified against the supplied key, the payload's
audience and issuer claims equal the supplied expected values, and the
token is not expired — a payload is passed to the guarded handler only
if the signature verified against a key belonging to the fetched key set
whose identifier matches the token's unverified header, the audience
claim equals the configured audience, the issuer claim equals
"https://" ++ AUTH0_DOMAIN ++ "/", and the token is not expired. -/
theorem c8_payload_only_after_full_verification {α : Type} (W : ExternalWorld)
    (perm : String) (f : Payload → α) (authHeader : Option String) (a : α)
    (Hdecode : ∀ t k algs aud iss q,
      W.decode t k algs aud iss = DecodeResult.ok q →
      W.sigValid t k = true ∧ q.aud = aud ∧ q.iss = iss ∧ W.expiredAt t = false)
    (Hrun : requires_auth W perm f authHeader = Except.ok a) :
    ∃ p tok keys key uh,
      a = f p ∧
      get_token_auth_header authHeader = Except.ok tok ∧
      W.fetchJwks = Except.ok { keys := keys } ∧
      W.getUnverifiedHeader tok = Except.ok uh ∧
      uh.kid = some key.kid ∧
      key ∈ keys ∧
      W.sigValid tok key = true ∧
      p.aud = API_AUDIENCE ∧
      p.iss = "https://" ++ AUTH0_DOMAIN ++ "/" ∧
      W.expiredAt tok = false := by
  unfold requires_auth at Hrun
  cases hg : get_token_auth_header authHeader with
  | error s =>
    rw [hg] at Hrun
    exact absurd Hrun (by simp)
  | ok tok =>
    rw [hg] at Hrun
    simp only at Hrun
    cases hv : verify_decode_jwt W tok with
    | error e =>
      rw [hv] at Hrun
      exact absurd Hrun (by simp)
    | ok payload =>
      rw [hv] at Hrun
      simp only at Hrun
      have ha : a = f payload := by
        cases hc : check_permissions perm payload with
        | error s =>
          rw [hc] at Hrun
          exact absurd Hrun (by simp)
        | ok b =>
          rw [hc] at Hrun
          simp only [Except.ok.injEq] at Hrun
          exact Hrun.symm
      unfold verify_decode_jwt at hv
      cases hfetch : W.fetchJwks with
      | error u =>
        rw [hfetch] at hv
        exact absurd hv (by simp)
      | ok jwks =>
        rw [hfetch] at hv
        simp only at hv
        cases huh : W.getUnverifiedHeader tok with
        | error u =>
          rw [huh] at hv
          exact absurd hv (by simp)
        | ok uh =>
          rw [huh] at hv
          simp only at hv
          cases hkid : uh.kid with
          | none =>
            rw [hkid] at hv
            exact absurd hv (by simp)
          | some kid =>
            rw [hkid] at hv
            simp only at hv
            cases hck : chooseKey jwks.keys kid with
            | none =>
              rw [hck] at hv
              exact absurd hv (by simp)
            | some rsa_key =>
              rw [hck] at hv
              simp only at hv
              cases hd : W.decode tok rsa_key ALGORITHMS API_AUDIENCE
                  ("https://" ++ AUTH0_DOMAIN ++ "/") with
              | ok q =>
                rw [hd] at hv
                simp only [Except.ok.injEq] at hv
                obtain ⟨hsig, haud, hiss, hexp⟩ :=
                  Hdecode tok rsa_key ALGORITHMS API_AUDIENCE
                    ("https://" ++ AUTH0_DOMAIN ++ "/") q hd
                obtain ⟨hmem, hkeq⟩ := chooseKey_eq_some jwks.keys kid rsa_key hck
                refine ⟨payload, tok, jwks.keys, rsa_key, uh, ha, rfl, rfl, huh,
                  ?_, hmem, hsig, ?_, ?_, hexp⟩
                · rw [hkid, hkeq]
                · exact hv ▸ haud
                · exact hv ▸ hiss
              | expired =>
                rw [hd] at hv
                exact absurd hv (by simp)
              | claimsError =>
                rw [hd] at hv
                exact absurd hv (by simp)
              | otherError =>
                rw [hd] at hv
                exact absurd hv (by simp)

/-- C8 witness: on the fixture world, whose decode oracle satisfies the
contract, the successful request yields a payload that passed the full
verification chain. -/
theorem c8_payload_only_after_full_verification_witness :
    ∃ (p : Payload) (tok : String) (keys : List Jwk) (key : Jwk) (uh : UnverifiedHeader),
      RespBody.handlerBody "drinks" = (fun _ => RespBody.handlerBody "drinks") p ∧
      get_token_auth_header (some "Bearer tokOK") = Except.ok tok ∧
      Wtest.fetchJwks = Except.ok { keys := keys } ∧
      Wtest.getUnverifiedHeader tok = Except.ok uh ∧
      uh.kid = some key.kid ∧
      key ∈ keys ∧
      Wtest.sigValid tok key = true ∧
      p.aud = API_AUDIENCE ∧
      p.iss = "https://" ++ AUTH0_DOMAIN ++ "/" ∧
      Wtest.expiredAt tok = false :=
  c8_payload_only_after_full_verification Wtest "get:drinks-detail"
    (fun _ => RespBody.handlerBody "drinks") (some "Bearer tokOK")
    (RespBody.handlerBody "drinks")
    (by
      intro t k algs aud iss q hq
      simp only [Wtest, decodeT] at hq
      split at hq
      · rename_i ht
        refine ⟨by simp [Wtest, ht], ?_, ?_, by simp [Wtest]⟩
        · cases hq
          rfl
        · cases hq
          rfl
      · split at hq
        · rename_i ht2
          refine ⟨by simp [Wtest, ht2], ?_, ?_, by simp [Wtest]⟩
          · cases hq
            rfl
          · cases hq
            rfl
        · split at hq
          · exact absurd hq (by simp)
          · split at hq
            · exact absurd hq (by simp)
            · exact absurd hq (by simp))
    rfl

/-- C4 counterexample: the claim says the header value is split on
whitespace.  The source splits on the space character only, so the
header "Bearer\ttoken" (tab-separated), which under whitespace splitting
yields exactly the two tokens "Bearer" and "token" and should produce
the candidate token, is instead rejected with 401. -/
theorem c4_tab_separated_header_rejected :
    get_token_auth_header_specWords (some "Bearer\ttoken") = Except.ok "token" ∧
    get_token_auth_header (some "Bearer\ttoken") = Except.error 401 :=
  ⟨rfl, rfl⟩

/-- C4 amended: if no Authorization header is present the guard fails
with status 401; otherwise the header value is split on the space
character (not on general whitespace), and unless this yields exactly
two parts whose first, case-insensitively, equals "bearer", the guard
fails with status 401; otherwise the second part is returned as the
candidate token string. -/
theorem c4_header_extraction_splits_on_space :
    get_token_auth_header none = Except.error 401 ∧
    (∀ h t, get_token_auth_header (some h) = Except.ok t ↔
      ∃ p0 p1, splitWhen (fun c => c = ' ') h.data = [p0, p1] ∧
        p0.map Char.toLower = "bearer".data ∧ t = String.mk p1) ∧
    (∀ h, (∃ t, get_token_auth_header (some h) = Except.ok t) ∨
      get_token_auth_header (some h) = Except.error 401) := by
  have hsome : ∀ h : String, get_token_auth_header (some h) =
      match splitWhen (fun c => c = ' ') h.data with
      | [p0, p1] =>
          if p0.map Char.toLower ≠ "bearer".data then Except.error 401
          else Except.ok (String.mk p1)
      | _ => Except.error 401 := fun _ => rfl
  refine ⟨rfl, ?_, ?_⟩
  · intro h t
    rw [hsome]
    cases hs : splitWhen (fun c => c = ' ') h.data with
    | nil => simp
    | cons p0 rest =>
      cases rest with
      | nil => simp
      | cons p1 rest2 =>
        cases rest2 with
        | nil =>
          by_cases hb : p0.map Char.toLower = "bearer".data
          · simp only [hb, ne_eq, not_true_eq_false, if_false, Except.ok.injEq, List.cons.injEq]
            constructor
            · intro ht
              exact ⟨p0, p1, ⟨rfl, rfl, trivial⟩, hb, ht.symm⟩
            · rintro ⟨q0, q1, ⟨h0, h1, -⟩, hqb, hqt⟩
              rw [hqt, h1]
          · simp [hb]
        | cons a b => simp
  · intro h
    rw [hsome]
    cases hs : splitWhen (fun c => c = ' ') h.data with
    | nil => exact Or.inr rfl
    | cons p0 rest =>
      cases rest with
      | nil => exact Or.inr rfl
      | cons p1 rest2 =>
        cases rest2 with
        | nil =>
          by_cases hb : p0.map Char.toLower = "bearer".data
          · exact Or.inl ⟨String.mk p1, by simp [hb]⟩
          · exact Or.inr (by simp [hb])
        | cons a b => exact Or.inr rfl

/-- C4 amended witness: the well-formed header "Bearer abc" yields the
candidate token "abc". -/
theorem c4_header_extraction_splits_on_space_witness :
    get_token_auth_header (some "Bearer abc") = Except.ok "abc" :=
  (c4_header_extraction_splits_on_space.2.1 "Bearer abc" "abc").mpr
    ⟨"Bearer".data, "abc".data, rfl, rfl, rfl⟩

end CoffeeShop
